import Mathlib

/-!
# Verification of the erbium DHCP core and DNS packet parser

Shallow embedding of `src/dhcp/mod.rs` and `src/dns/parse.rs` from the
erbium repository, together with theorems settling the specification
claims about the policy evaluator, the request dispatcher and the DNS
parser.

Machine integers are modelled as `Nat`; byte strings as `List Nat`;
IPv4 addresses as the `Nat` value of their 32 bits; hash maps as
association lists whose insert replaces any previous binding of the key.
Components of the repository that are not part of the provided sources
(the `dhcppkt` codec helpers, `config::Policy`, `pool`, `Ipv4Subnet`)
are modelled from the specification, as marked on each definition.
-/

set_option autoImplicit false

namespace Erbium

/-! ## Option maps -/

/-- Modelled from the spec: §3 OptionMap — `dhcppkt::DhcpOptions`, a mapping
from option code (u8) to raw bytes, here an association list where an
insert replaces any previous binding of the code. -/
structure DhcpOptions where
  other : List (Nat × List Nat)
deriving DecidableEq, Repr

/-- Lookup of an option code in the map. -/
def DhcpOptions.get (o : DhcpOptions) (k : Nat) : Option (List Nat) :=
  (o.other.find? (fun p => p.1 == k)).map (fun p => p.2)

/-- Modelled from the spec: `DhcpOptions::set_option` (a Lean keyword forces
the camelCase name) — store the encoded value under the code, replacing any
previous binding. -/
def DhcpOptions.setOption (o : DhcpOptions) (k : Nat) (v : List Nat) : DhcpOptions :=
  ⟨(k, v) :: o.other.filter (fun p => p.1 ≠ k)⟩

/-- Modelled from the spec: `DhcpOptions::maybe_set_option` — set the option
when a value is present, otherwise leave the map unchanged. -/
def DhcpOptions.maybe_set_option (o : DhcpOptions) (k : Nat) : Option (List Nat) → DhcpOptions
  | some v => o.setOption k v
  | none => o

/-- Modelled from the spec: `DhcpOptions::mutate_option` — store the encoded
value under the code. -/
def DhcpOptions.mutate_option (o : DhcpOptions) (k : Nat) (v : List Nat) : DhcpOptions :=
  o.setOption k v

/-! ## Constants of the wire protocol (src/dhcp/mod.rs, dhcppkt registry) -/

def OP_BOOTREQUEST : Nat := 1
def OP_BOOTREPLY : Nat := 2
def HWTYPE_ETHERNET : Nat := 1
def DHCPDISCOVER : Nat := 1
def DHCPOFFER : Nat := 2
def DHCPREQUEST : Nat := 3
def DHCPACK : Nat := 5
def OPTION_ADDRESSREQUEST : Nat := 50
def OPTION_LEASETIME : Nat := 51
def OPTION_MSGTYPE : Nat := 53
def OPTION_SERVERID : Nat := 54
def OPTION_PARAMLIST : Nat := 55
def OPTION_CLIENTID : Nat := 61

/-- `net::Ipv4Addr::UNSPECIFIED`, all-zero address. -/
def UNSPECIFIED : Nat := 0

/-- Big-endian encoding of an IPv4 address (or u32) into four bytes;
values ≥ 2^32 are truncated to their low 32 bits, as a u32 cast would. -/
def encodeIp (ip : Nat) : List Nat :=
  [ip / 2 ^ 24 % 256, ip / 2 ^ 16 % 256, ip / 2 ^ 8 % 256, ip % 256]

/-- Big-endian u32 encoding (`as u32` truncation included), as used for the
lease time option. -/
def encodeU32 (n : Nat) : List Nat := encodeIp n

/-- Decoding of a 4-byte option value back into an IPv4 address; any other
length is malformed and decodes to `none`. -/
def decodeIp : List Nat → Option Nat
  | [a, b, c, d] => some (a * 2 ^ 24 + b * 2 ^ 16 + c * 2 ^ 8 + d)
  | _ => none

/-! ## Typed accessors (modelled from the spec §4.1: decode per the registry,
return `none` when the option is absent or malformed) -/

/-- Modelled from the spec: `get_messagetype`, option 53 decoded as a u8. -/
def DhcpOptions.get_messagetype (o : DhcpOptions) : Option Nat :=
  match o.get OPTION_MSGTYPE with
  | some [t] => some t
  | _ => none

/-- Modelled from the spec: `get_serverid`, option 54 decoded as an IPv4. -/
def DhcpOptions.get_serverid (o : DhcpOptions) : Option Nat :=
  (o.get OPTION_SERVERID).bind decodeIp

/-- Modelled from the spec: `get_clientid`, option 61 as a raw byte string. -/
def DhcpOptions.get_clientid (o : DhcpOptions) : Option (List Nat) :=
  o.get OPTION_CLIENTID

/-- Modelled from the spec: `get_address_request`, option 50 decoded as IPv4. -/
def DhcpOptions.get_address_request (o : DhcpOptions) : Option Nat :=
  (o.get OPTION_ADDRESSREQUEST).bind decodeIp

/-! ## Packets and requests -/

/-- The `dhcppkt::DHCP` packet record (fields as used by src/dhcp/mod.rs). -/
structure DHCP where
  op : Nat
  htype : Nat
  hlen : Nat
  hops : Nat
  xid : Nat
  secs : Nat
  flags : Nat
  ciaddr : Nat
  yiaddr : Nat
  siaddr : Nat
  giaddr : Nat
  chaddr : List Nat
  sname : List Nat
  file : List Nat
  options : DhcpOptions
deriving DecidableEq, Repr

/-- Modelled from the spec: §3 ClientId / `DHCP::get_client_id` — the explicit
ClientId option bytes, or htype followed by the first hlen bytes of chaddr. -/
def DHCP.get_client_id (pkt : DHCP) : List Nat :=
  match pkt.options.get_clientid with
  | some c => c
  | none => pkt.htype :: pkt.chaddr.take pkt.hlen

/-- `DHCPRequest` from src/dhcp/mod.rs: the parsed packet plus the address
and interface index the request arrived on. -/
structure DHCPRequest where
  pkt : DHCP
  serverip : Nat
  ifindex : Nat
deriving DecidableEq, Repr

/-! ## Policies -/

/-- Modelled from the spec: `crate::net::Ipv4Subnet` — a CIDR prefix;
containment compares the high `prefixlen` bits. -/
structure Ipv4Subnet where
  addr : Nat
  prefixlen : Nat
deriving DecidableEq, Repr

def Ipv4Subnet.contains (s : Ipv4Subnet) (ip : Nat) : Bool :=
  ip / 2 ^ (32 - s.prefixlen) == s.addr / 2 ^ (32 - s.prefixlen)

/-- Modelled from the spec: §6 `config::Policy` — match predicates, apply
clauses and child policies.  `apply_other` values are the already-encoded
option bytes (the registry typing of config values is outside the core). -/
inductive Policy where
  | mk (match_chaddr : Option (List Nat)) (match_subnet : Option Ipv4Subnet)
       (match_other : List (Nat × List Nat)) (apply_address : Option (List Nat))
       (apply_other : List (Nat × List Nat)) (policies : List Policy)

def Policy.match_chaddr : Policy → Option (List Nat)
  | .mk v _ _ _ _ _ => v

def Policy.match_subnet : Policy → Option Ipv4Subnet
  | .mk _ v _ _ _ _ => v

def Policy.match_other : Policy → List (Nat × List Nat)
  | .mk _ _ v _ _ _ => v

def Policy.apply_address : Policy → Option (List Nat)
  | .mk _ _ _ v _ _ => v

def Policy.apply_other : Policy → List (Nat × List Nat)
  | .mk _ _ _ _ v _ => v

def Policy.policies : Policy → List Policy
  | .mk _ _ _ _ _ v => v

/-- The three-valued match state of `check_policy` (src/dhcp/mod.rs:115). -/
inductive PolicyMatch where
  | NoMatch
  | MatchFailed
  | MatchSucceeded
deriving DecidableEq, Repr

/-- The `match_other` loop of `check_policy` (src/dhcp/mod.rs:138-147):
a present-and-equal option upgrades the outcome to MatchSucceeded, a
mismatching or absent option returns MatchFailed at once. -/
def check_other (opts : DhcpOptions) (mo : List (Nat × List Nat)) (outcome : PolicyMatch) : PolicyMatch :=
  match mo with
  | [] => outcome
  | (k, m) :: rest =>
    match opts.get k with
    | some v => if m == v then check_other opts rest .MatchSucceeded else .MatchFailed
    | none => .MatchFailed

/-- The `match_subnet` step of `check_policy` (src/dhcp/mod.rs:131-136),
entered with the outcome accumulated by the `match_chaddr` step. -/
def check_policy_subnet (req : DHCPRequest) (policy : Policy) (outcome : PolicyMatch) : PolicyMatch :=
  match policy.match_subnet with
  | some match_subnet =>
    if ¬ match_subnet.contains req.serverip then .MatchFailed
    else check_other req.pkt.options policy.match_other .MatchSucceeded
  | none => check_other req.pkt.options policy.match_other outcome

/-- `check_policy` (src/dhcp/mod.rs:122-150). -/
def check_policy (req : DHCPRequest) (policy : Policy) : PolicyMatch :=
  match policy.match_chaddr with
  | some match_chaddr =>
    if req.pkt.chaddr ≠ match_chaddr then .MatchFailed
    else check_policy_subnet req policy .MatchSucceeded
  | none => check_policy_subnet req policy .NoMatch

/-- `check_policies` (src/dhcp/mod.rs:191-206). -/
def check_policies (req : DHCPRequest) : List Policy → Bool
  | [] => false
  | .mk mc ms mo aa ao children :: rest =>
    match check_policy req (.mk mc ms mo aa ao children) with
    | .MatchSucceeded => true
    | .MatchFailed => check_policies req rest
    | .NoMatch =>
      if check_policies req children then true
      else check_policies req rest
termination_by ps => sizeOf ps

/-- The `Response` scratch (src/dhcp/mod.rs:217-223).  `address` is the
candidate `PoolAddresses` set, modelled as a list of IPv4 addresses. -/
structure Response where
  options : DhcpOptions
  address : Option (List Nat)
  minlease : Option Nat
  maxlease : Option Nat
deriving DecidableEq, Repr

/-- The client's Parameter-Request-List as read by `apply_policy`
(src/dhcp/mod.rs:167-178): the raw bytes of option 55, empty when absent. -/
def param_list (req : DHCPRequest) : List Nat :=
  (req.pkt.options.get OPTION_PARAMLIST).getD []

/-- The `apply_other` loop of `apply_policy` (src/dhcp/mod.rs:180-184):
write each pair into the option map only when its code is in the
Parameter-Request-List. -/
def apply_other_loop (pl : List Nat) (ao : List (Nat × List Nat)) (options : DhcpOptions) : DhcpOptions :=
  match ao with
  | [] => options
  | (k, v) :: rest =>
    apply_other_loop pl rest (if pl.contains k then options.mutate_option k v else options)

mutual

/-- `apply_policy` (src/dhcp/mod.rs:152-189); the `&mut Response` is made
explicit, the Bool result is paired with the final scratch. -/
def apply_policy (req : DHCPRequest) (policy : Policy) (response : Response) : Bool × Response :=
  match policy with
  | .mk mc ms mo aa ao children =>
    let policymatch := check_policy req (.mk mc ms mo aa ao children)
    if policymatch == .MatchFailed then (false, response)
    else if policymatch == .NoMatch && !check_policies req children then (false, response)
    else
      let response :=
        match aa with
        | some address => { response with address := some address }
        | none => response
      let response := { response with options := apply_other_loop (param_list req) ao response.options }
      let response := (apply_policies req children response).2
      (true, response)
termination_by sizeOf policy

/-- `apply_policies` (src/dhcp/mod.rs:208-215). -/
def apply_policies (req : DHCPRequest) (policies : List Policy) (response : Response) : Bool × Response :=
  match policies with
  | [] => (false, response)
  | policy :: rest =>
    match apply_policy req policy response with
    | (true, response) => (true, response)
    | (false, response) => apply_policies req rest response
termination_by sizeOf policies

end

/-! ## Errors, leases and the allocator boundary -/

/-- Modelled from the spec: §4.1 — `dhcppkt::ParseError`. -/
inductive ParseError where
  | InvalidPacket
  | ShortPacket
  | UnknownMagic
deriving DecidableEq, Repr

/-- `DhcpError` (src/dhcp/mod.rs:45-53); the message-type payload is the
u8 message type code. -/
inductive DhcpError where
  | UnknownMessageType (m : Nat)
  | NoLeasesAvailable
  | ParseError (e : ParseError)
  | InternalError (s : String)
  | OtherServer
  | NoPolicyConfigured
deriving DecidableEq, Repr

/-- Modelled from the spec: §3 Lease — the fields read by the dispatcher:
the allocated IP and the lease duration in seconds. -/
structure Lease where
  ip : Nat
  expire : Nat
deriving DecidableEq, Repr

/-- Modelled from the spec: `pool::Error` — address exhaustion, or any
other allocator failure carrying its display string. -/
inductive PoolError where
  | NoAssignableAddress
  | OtherError (s : String)
deriving DecidableEq, Repr

/-- Display string of a pool error (`e.to_string()`). -/
def PoolError.toString : PoolError → String
  | .NoAssignableAddress => "No Assignable Address"
  | .OtherError s => s

/-- The allocator boundary: `pool::Pool::allocate_address` takes the client
id, the optional requested address and the candidate set, and returns a
lease or an error.  The dispatcher is verified for every such function. -/
abbrev Allocator := List Nat → Option Nat → List Nat → Except PoolError Lease

/-! ## The dispatcher -/

/-- The Response seeded at the top of both `handle_discover`
(src/dhcp/mod.rs:231-242) and `handle_request` (src/dhcp/mod.rs:290-301):
`MessageType=OFFER`, `ServerId=request.serverip`, `ClientId` echoed when
the client supplied one. -/
def seed_response (req : DHCPRequest) : Response :=
  { options := (((DhcpOptions.mk []).setOption OPTION_MSGTYPE [DHCPOFFER]).setOption
      OPTION_SERVERID (encodeIp req.serverip)).maybe_set_option
      OPTION_CLIENTID req.pkt.options.get_clientid
    address := none
    minlease := none
    maxlease := none }

/-- `handle_discover` (src/dhcp/mod.rs:225-277), with the pool made explicit
as the `alloc` function and the configuration reduced to its policy list
(the only part the function reads). -/
def handle_discover (alloc : Allocator) (req : DHCPRequest) (_serverids : List Nat)
    (policies : List Policy) : Except DhcpError DHCP :=
  match apply_policies req policies (seed_response req) with
  | (applied, response) =>
    if !applied then .error .NoPolicyConfigured
    else match response.address with
      | some addresses =>
        match alloc req.pkt.get_client_id req.pkt.options.get_address_request addresses with
        | .ok lease =>
          .ok { op := OP_BOOTREPLY, htype := HWTYPE_ETHERNET, hlen := 6, hops := 0,
                xid := req.pkt.xid, secs := 0, flags := req.pkt.flags,
                ciaddr := UNSPECIFIED, yiaddr := lease.ip, siaddr := UNSPECIFIED,
                giaddr := req.pkt.giaddr, chaddr := req.pkt.chaddr,
                sname := [], file := [],
                options := response.options.setOption OPTION_SERVERID (encodeIp req.serverip) }
        | .error .NoAssignableAddress => .error .NoLeasesAvailable
        | .error e => .error (.InternalError e.toString)
      | none => .error .NoLeasesAvailable

/-- The leading guard of `handle_request` (src/dhcp/mod.rs:285-289): true
when the request carries a ServerId option naming a server that is not in
the known server id set. -/
def other_server_guard (req : DHCPRequest) (serverids : List Nat) : Bool :=
  match req.pkt.options.get_serverid with
  | some si => !serverids.contains si
  | none => false

/-- `handle_request` (src/dhcp/mod.rs:279-344).  The leading guard drops
requests whose ServerId names another server; the reply is an ACK whose
ServerId echoes the request's ServerId option when present. -/
def handle_request (alloc : Allocator) (req : DHCPRequest) (serverids : List Nat)
    (policies : List Policy) : Except DhcpError DHCP :=
  if other_server_guard req serverids then .error .OtherServer
  else match apply_policies req policies (seed_response req) with
  | (applied, response) =>
    if !applied then .error .NoPolicyConfigured
    else match response.address with
      | some addresses =>
        match alloc req.pkt.get_client_id req.pkt.options.get_address_request addresses with
        | .ok lease =>
          .ok { op := OP_BOOTREPLY, htype := HWTYPE_ETHERNET, hlen := 6, hops := 0,
                xid := req.pkt.xid, secs := 0, flags := req.pkt.flags,
                ciaddr := req.pkt.ciaddr, yiaddr := lease.ip, siaddr := UNSPECIFIED,
                giaddr := req.pkt.giaddr, chaddr := req.pkt.chaddr,
                sname := [], file := [],
                options := (((response.options.setOption OPTION_MSGTYPE [DHCPACK]).setOption
                    OPTION_SERVERID
                    (encodeIp ((req.pkt.options.get_serverid).getD req.serverip))).maybe_set_option
                    OPTION_CLIENTID req.pkt.options.get_clientid).setOption
                    OPTION_LEASETIME (encodeU32 lease.expire) }
        | .error .NoAssignableAddress => .error .NoLeasesAvailable
        | .error e => .error (.InternalError e.toString)
      | none => .error .NoLeasesAvailable

/-! ## The wire parser (modelled from the spec §4.1) -/

/-- Modelled from the spec: §4.1 option walk — `(code, len, value)` records;
`0x00` pads, `0xFF` ends; truncation mid-option is `ShortPacket`; a later
occurrence of a code overwrites an earlier one.  `fuel` only bounds the
recursion: every pass consumes at least one byte, so the `length + 1`
units supplied by `parse` never run out and the zero-fuel arm is
unreachable. -/
def parse_options (fuel : Nat) (acc : DhcpOptions) (l : List Nat) : Except ParseError DhcpOptions :=
  match fuel with
  | 0 => .error .ShortPacket
  | fuel + 1 =>
    match l with
    | [] => .ok acc
    | 0 :: rest => parse_options fuel acc rest
    | 255 :: _ => .ok acc
    | [_] => .error .ShortPacket
    | code :: len :: rest =>
      if rest.length < len then .error .ShortPacket
      else parse_options fuel (acc.setOption code (rest.take len)) (rest.drop len)

/-- Big-endian 16-bit read of two bytes. -/
def be16 (a b : Nat) : Nat := a * 256 + b

/-- Big-endian 32-bit read of four bytes. -/
def be32 (a b c d : Nat) : Nat := ((a * 256 + b) * 256 + c) * 256 + d

/-- Byte slice `buf[lo..lo+len]`. -/
def slice (buf : List Nat) (lo len : Nat) : List Nat := (buf.drop lo).take len

/-- Modelled from the spec: §4.1 Parse — `dhcppkt::parse`.  Inputs shorter
than the fixed 236-byte prefix are rejected; the 4-byte magic cookie
`99 130 83 99` must follow at offset 236; then the options are walked. -/
def parse (buf : List Nat) : Except ParseError DHCP :=
  if buf.length < 236 then .error .ShortPacket
  else if slice buf 236 4 ≠ [99, 130, 83, 99] then .error .InvalidPacket
  else
    match parse_options ((buf.drop 240).length + 1) (DhcpOptions.mk []) (buf.drop 240) with
    | .error e => .error e
    | .ok options =>
      .ok { op := buf.getD 0 0, htype := buf.getD 1 0, hlen := buf.getD 2 0,
            hops := buf.getD 3 0,
            xid := be32 (buf.getD 4 0) (buf.getD 5 0) (buf.getD 6 0) (buf.getD 7 0),
            secs := be16 (buf.getD 8 0) (buf.getD 9 0),
            flags := be16 (buf.getD 10 0) (buf.getD 11 0),
            ciaddr := be32 (buf.getD 12 0) (buf.getD 13 0) (buf.getD 14 0) (buf.getD 15 0),
            yiaddr := be32 (buf.getD 16 0) (buf.getD 17 0) (buf.getD 18 0) (buf.getD 19 0),
            siaddr := be32 (buf.getD 20 0) (buf.getD 21 0) (buf.getD 22 0) (buf.getD 23 0),
            giaddr := be32 (buf.getD 24 0) (buf.getD 25 0) (buf.getD 26 0) (buf.getD 27 0),
            chaddr := slice buf 28 16, sname := slice buf 44 64, file := slice buf 108 128,
            options := options }

/-- `handle_pkt` (src/dhcp/mod.rs:346-374): parse, wrap into a request, and
dispatch on the MessageType option. -/
def handle_pkt (alloc : Allocator) (buf : List Nat) (dst : Nat) (serverids : List Nat)
    (intf : Nat) (policies : List Policy) : Except DhcpError DHCP :=
  match parse buf with
  | .ok pkt =>
    let request : DHCPRequest := { pkt := pkt, serverip := dst, ifindex := intf }
    match request.pkt.options.get_messagetype with
    | some t =>
      if t = DHCPDISCOVER then handle_discover alloc request serverids policies
      else if t = DHCPREQUEST then handle_request alloc request serverids policies
      else .error (.UnknownMessageType t)
    | none => .error (.ParseError .InvalidPacket)
  | .error e => .error (.ParseError e)

/-! ## DNS packet records (the `dnspkt` containers used by src/dns/parse.rs) -/

/-- `dnspkt::Label`, a byte string. -/
abbrev DnsLabel := List Nat

/-- `dnspkt::Domain`, a label sequence. -/
abbrev Domain := List DnsLabel

/-- `dnspkt::EdnsOption`. -/
structure EdnsOption where
  code : Nat
  data : List Nat
deriving DecidableEq, Repr

/-- `dnspkt::EdnsData`. -/
structure EdnsData where
  other : List EdnsOption
deriving DecidableEq, Repr

/-- `dnspkt::SoaData`. -/
structure SoaData where
  mname : Domain
  rname : Domain
  serial : Nat
  refresh : Nat
  retry : Nat
  expire : Nat
  minimum : Nat
deriving DecidableEq, Repr

/-- `dnspkt::RData`. -/
inductive RData where
  | OPT : EdnsData → RData
  | SOA : SoaData → RData
  | Other : List Nat → RData
deriving DecidableEq, Repr

/-- `dnspkt::RR`; `cls` stands for the source's `class` field, a Lean
keyword. -/
structure RR where
  domain : Domain
  rrtype : Nat
  cls : Nat
  ttl : Nat
  rdata : RData
deriving DecidableEq, Repr

/-- `dnspkt::RR_OPT` (standard OPT record type 41). -/
def RR_OPT : Nat := 41

/-- `dnspkt::RR_SOA` (standard SOA record type 6). -/
def RR_SOA : Nat := 6

/-- `dnspkt::Question`. -/
structure Question where
  qdomain : Domain
  qtype : Nat
  qclass : Nat
deriving DecidableEq, Repr

/-- `dnspkt::DNSPkt` (the fields built by `get_dns`). -/
structure DNSPkt where
  qid : Nat
  rd : Bool
  tc : Bool
  aa : Bool
  qr : Bool
  opcode : Nat
  cd : Bool
  ad : Bool
  ra : Bool
  rcode : Nat
  bufsize : Nat
  edns_ver : Option Nat
  edns_do : Bool
  question : Question
  answer : List RR
  nameserver : List RR
  additional : List RR
  edns : Option EdnsData
deriving DecidableEq, Repr

/-! ## The EDNS option parser (src/dns/parse.rs:22-71)

Rust methods take `&mut self` and return `Result<T, String>`; the model
passes the remaining buffer explicitly and adds a third outcome, `panic`,
for the places where the source indexes out of bounds. -/

/-- Outcome of an `EdnsParser` method: value plus remaining buffer,
protocol error plus remaining buffer, or a Rust panic. -/
inductive ERes (α : Type) where
  | ok : α → List Nat → ERes α
  | err : String → List Nat → ERes α
  | panic : ERes α
deriving DecidableEq, Repr

/-- The `?` operator on `EdnsParser` results. -/
def ERes.bind {α β : Type} (r : ERes α) (f : α → List Nat → ERes β) : ERes β :=
  match r with
  | .ok a buf => f a buf
  | .err e buf => .err e buf
  | .panic => .panic

/-- `EdnsParser::get_u8` (src/dns/parse.rs:31-38): `split_first`, erring on
an empty buffer. -/
def EdnsParser.get_u8 : List Nat → ERes Nat
  | [] => .err "Truncated EDNS Option" []
  | first :: rest => .ok first rest

/-- `EdnsParser::get_u16` (src/dns/parse.rs:40-44). -/
def EdnsParser.get_u16 (buf : List Nat) : ERes Nat :=
  (EdnsParser.get_u8 buf).bind fun upper buf =>
  (EdnsParser.get_u8 buf).bind fun lower buf =>
  .ok (upper * 256 + lower) buf

/-- `EdnsParser::get_option` (src/dns/parse.rs:46-58).  The source slices
`buffer[0..len]` before checking the length: a too-short buffer panics,
and the following truncation check is dead code; both are kept. -/
def EdnsParser.get_option (buf : List Nat) : ERes EdnsOption :=
  (EdnsParser.get_u16 buf).bind fun code buf =>
  (EdnsParser.get_u16 buf).bind fun len buf =>
  if len ≤ buf.length then
    let data := buf.take len
    let rest := buf.drop len
    if data.length < len then .err "Truncated EDNS Option" rest
    else .ok ⟨code, data⟩ rest
  else .panic

/-- `EdnsParser::get_options` (src/dns/parse.rs:60-70): read options until
the buffer is exhausted, accumulating into `data.other`. -/
def EdnsParser.get_options (acc : List EdnsOption) (buf : List Nat) : ERes EdnsData :=
  if h : buf = [] then .ok ⟨acc⟩ buf
  else
    match heq : EdnsParser.get_option buf with
    | .ok ednsopt buf2 => EdnsParser.get_options (acc ++ [ednsopt]) buf2
    | .err e buf2 => .err e buf2
    | .panic => .panic
termination_by buf.length
decreasing_by
  rcases buf with _ | ⟨a, r1⟩
  · exact absurd rfl h
  · rcases r1 with _ | ⟨b, r2⟩
    · simp [EdnsParser.get_option, EdnsParser.get_u16, EdnsParser.get_u8, ERes.bind] at heq
    · rcases r2 with _ | ⟨c, r3⟩
      · simp [EdnsParser.get_option, EdnsParser.get_u16, EdnsParser.get_u8, ERes.bind] at heq
      · rcases r3 with _ | ⟨d, r4⟩
        · simp [EdnsParser.get_option, EdnsParser.get_u16, EdnsParser.get_u8, ERes.bind] at heq
        · simp only [EdnsParser.get_option, EdnsParser.get_u16, EdnsParser.get_u8,
            ERes.bind] at heq
          split at heq
          · split at heq
            · exact absurd heq (by simp)
            · cases heq
              simp only [List.length_drop, List.length_cons]
              omega
          · exact absurd heq (by simp)

/-! ## The DNS packet parser (src/dns/parse.rs:73-301) -/

/-- The memoised label table entry (`struct Label`, src/dns/parse.rs:73-76). -/
structure LabelEntry where
  label : DnsLabel
  next : Option Nat
deriving DecidableEq, Repr

/-- `PktParser` state (src/dns/parse.rs:78-82); the BTreeMap of label
offsets is an association list whose insert replaces the key's binding. -/
structure PktParser where
  buffer : List Nat
  offset : Nat
  labels : List (Nat × LabelEntry)
deriving DecidableEq, Repr

/-- `BTreeMap::insert` on the label table. -/
def labels_insert (l : List (Nat × LabelEntry)) (k : Nat) (v : LabelEntry) :
    List (Nat × LabelEntry) :=
  (k, v) :: l.filter (fun p => p.1 ≠ k)

/-- `BTreeMap::get` on the label table. -/
def labels_get (l : List (Nat × LabelEntry)) (k : Nat) : Option LabelEntry :=
  (l.find? (fun p => p.1 == k)).map (fun p => p.2)

/-- Outcome of a `PktParser` method: value plus parser state, protocol
error plus parser state, a Rust panic, or `diverge` — the model's fuel ran
out, which with the fuel supplied by the callers happens only on a
compression-pointer chase that the source would follow forever. -/
inductive PRes (α : Type) where
  | ok : α → PktParser → PRes α
  | err : String → PktParser → PRes α
  | panic : PRes α
  | diverge : PRes α
deriving DecidableEq, Repr

/-- The `?` operator on `PktParser` results. -/
def PRes.bind {α β : Type} (r : PRes α) (f : α → PktParser → PRes β) : PRes β :=
  match r with
  | .ok a s => f a s
  | .err e s => .err e s
  | .panic => .panic
  | .diverge => .diverge

/-- `PktParser::new` (src/dns/parse.rs:85-91). -/
def PktParser.new (buffer : List Nat) : PktParser :=
  { buffer := buffer, offset := 0, labels := [] }

/-- `PktParser::peek_u8` (src/dns/parse.rs:92-94): `self.buffer[self.offset]`
indexes without a bound check, so an offset at or past the end panics. -/
def PktParser.peek_u8 (s : PktParser) : PRes Nat :=
  if h : s.offset < s.buffer.length then .ok (s.buffer.get ⟨s.offset, h⟩) s
  else .panic

/-- `PktParser::get_u8` (src/dns/parse.rs:95-99). -/
def PktParser.get_u8 (s : PktParser) : PRes Nat :=
  (s.peek_u8).bind fun ret s =>
  .ok ret { s with offset := s.offset + 1 }

/-- `PktParser::get_u16` (src/dns/parse.rs:100-102). -/
def PktParser.get_u16 (s : PktParser) : PRes Nat :=
  (s.get_u8).bind fun a s =>
  (s.get_u8).bind fun b s =>
  .ok (a * 256 + b) s

/-- `PktParser::get_u32` (src/dns/parse.rs:103-108). -/
def PktParser.get_u32 (s : PktParser) : PRes Nat :=
  (s.get_u8).bind fun a s =>
  (s.get_u8).bind fun b s =>
  (s.get_u8).bind fun c s =>
  (s.get_u8).bind fun d s =>
  .ok (a * (256 * 256 * 256) + b * (256 * 256) + c * 256 + d) s

/-- `PktParser::get_bytes` (src/dns/parse.rs:110-114): the slice
`buffer[offset..offset + count]` panics when it reaches past the end. -/
def PktParser.get_bytes (s : PktParser) (count : Nat) : PRes (List Nat) :=
  if s.offset + count ≤ s.buffer.length then
    .ok ((s.buffer.drop s.offset).take count) { s with offset := s.offset + count }
  else .panic

/-- `PktParser::get_label` (src/dns/parse.rs:115-119); the `assert!` on the
top bits panics when it fails. -/
def PktParser.get_label (s : PktParser) : PRes DnsLabel :=
  (s.get_u8).bind fun size s =>
  if size &&& 192 = 0 then s.get_bytes size
  else .panic

/-- The compressed-label chase loop of `get_domain`
(src/dns/parse.rs:151-166).  One fuel unit per lookup: more lookups than
the table has entries revisits a key, and the deterministic chase then
cycles forever in the source, so exhaustion is exactly divergence. -/
def PktParser.chase (fuel : Nat) (domainv : Domain) (offset : Nat) (s : PktParser) : PRes Domain :=
  match fuel with
  | 0 => .diverge
  | fuel + 1 =>
    match labels_get s.labels offset with
    | none => .err "Bad compression offset" s
    | some l =>
      match l.next with
      | some o => PktParser.chase fuel (domainv ++ [l.label]) o s
      | none => .ok (domainv ++ [l.label]) s

/-- The outer loop of `get_domain` (src/dns/parse.rs:121-171).  Every pass
either returns or advances the offset by at least two while the offset
stays bounded by the buffer length, so `buffer.length + 1` fuel units
never run out. -/
def PktParser.get_domain_go (fuel : Nat) (domainv : Domain) (s : PktParser) : PRes Domain :=
  match fuel with
  | 0 => .diverge
  | fuel + 1 =>
    (s.peek_u8).bind fun prefx s =>
    if prefx &&& 192 = 0 then
      let saved_offset := s.offset
      (s.peek_u8).bind fun peeked s =>
      if peeked = 0 then
        (s.get_u8).bind fun _ s => .ok domainv s
      else
        (s.get_label).bind fun label s =>
        (s.peek_u8).bind fun peeked2 s =>
        let next := if peeked2 = 0 then none else some s.offset
        let s := { s with labels := labels_insert s.labels saved_offset ⟨label, next⟩ }
        PktParser.get_domain_go fuel (domainv ++ [label]) s
    else if prefx &&& 192 = 192 then
      (s.get_u16).bind fun w s =>
      PktParser.chase (s.labels.length + 1) domainv (w &&& 63) s
    else .err "Unsupported label type" s

/-- `PktParser::get_domain` (src/dns/parse.rs:121-171). -/
def PktParser.get_domain (s : PktParser) : PRes Domain :=
  PktParser.get_domain_go (s.buffer.length + 1) [] s

/-- `PktParser::get_class` (src/dns/parse.rs:173-175); the `Class` newtype
is flattened to its u16. -/
def PktParser.get_class (s : PktParser) : PRes Nat :=
  s.get_u16

/-- `PktParser::get_type` (src/dns/parse.rs:177-179); the `Type` newtype is
flattened to its u16. -/
def PktParser.get_type (s : PktParser) : PRes Nat :=
  s.get_u16

/-- `PktParser::get_soa` (src/dns/parse.rs:181-192). -/
def PktParser.get_soa (s : PktParser) : PRes SoaData :=
  (s.get_u16).bind fun _rdlen s =>
  (s.get_domain).bind fun mname s =>
  (s.get_domain).bind fun rname s =>
  (s.get_u32).bind fun serial s =>
  (s.get_u32).bind fun refresh s =>
  (s.get_u32).bind fun retry s =>
  (s.get_u32).bind fun expire s =>
  (s.get_u32).bind fun minimum s =>
  .ok ⟨mname, rname, serial, refresh, retry, expire, minimum⟩ s

/-- `PktParser::get_rdata` (src/dns/parse.rs:194-208); the embedded
`EdnsParser` run's error is propagated, its panic stays a panic. -/
def PktParser.get_rdata (rtype : Nat) (s : PktParser) : PRes RData :=
  if rtype = RR_OPT then
    (s.get_u16).bind fun rdlen s =>
    (s.get_bytes rdlen).bind fun rdata s =>
    match EdnsParser.get_options [] rdata with
    | .ok d _ => .ok (.OPT d) s
    | .err e _ => .err e s
    | .panic => .panic
  else if rtype = RR_SOA then
    (s.get_soa).bind fun soa s => .ok (.SOA soa) s
  else
    (s.get_u16).bind fun rdlen s =>
    (s.get_bytes rdlen).bind fun rdata s =>
    .ok (.Other rdata) s

/-- `PktParser::get_rr` (src/dns/parse.rs:210-224). -/
def PktParser.get_rr (s : PktParser) : PRes RR :=
  (s.get_domain).bind fun domain s =>
  (s.get_type).bind fun rrtype s =>
  (s.get_class).bind fun cls s =>
  (s.get_u32).bind fun ttl s =>
  (PktParser.get_rdata rrtype s).bind fun rdata s =>
  .ok ⟨domain, rrtype, cls, ttl, rdata⟩ s

/-- The `(0..count).map(|_| self.get_rr()).collect::<Result<Vec<_>, _>>()`
pattern of `get_dns` (src/dns/parse.rs:248-256). -/
def PktParser.get_rrs (n : Nat) (s : PktParser) : PRes (List RR) :=
  match n with
  | 0 => .ok [] s
  | n + 1 =>
    (s.get_rr).bind fun rr s =>
    (PktParser.get_rrs n s).bind fun rest s =>
    .ok (rr :: rest) s

/-- `PktParser::get_dns` (src/dns/parse.rs:226-300).  The OPT-record branch
reproduces the source's `panic!` when the found OPT record does not carry
OPT rdata. -/
def PktParser.get_dns (s : PktParser) : PRes DNSPkt :=
  (s.get_u16).bind fun qid s =>
  (s.get_u8).bind fun flag1 s =>
  (s.get_u8).bind fun flag2 s =>
  (s.get_u16).bind fun qcount s =>
  let opcode := (flag1 &&& 120) >>> 3
  let rcode := flag2 &&& 15
  if qcount ≠ 1 then
    .err ("Incorrect number of questions (" ++ toString qcount ++ " / Opcode(" ++
      toString opcode ++ ") / RCode(" ++ toString rcode ++ "))") s
  else
  (s.get_u16).bind fun arcount s =>
  (s.get_u16).bind fun nscount s =>
  (s.get_u16).bind fun adcount s =>
  (s.get_domain).bind fun qdomain s =>
  (s.get_type).bind fun qtype s =>
  (s.get_class).bind fun qclass s =>
  (PktParser.get_rrs arcount s).bind fun answer s =>
  (PktParser.get_rrs nscount s).bind fun nameserver s =>
  (PktParser.get_rrs adcount s).bind fun additional s =>
  let opt := additional.find? (fun it => it.rrtype == RR_OPT)
  let bufsize := max (match opt with | none => 512 | some o => o.cls) 512
  let ercode := match opt with | none => 0 | some o => o.ttl >>> 24
  let ever := opt.map (fun o => (o.ttl >>> 16) &&& 255)
  let edo := match opt with | none => false | some o => (o.ttl &&& 32768) != 0
  let ednsv : Option (Option EdnsData) :=
    match opt with
    | none => some none
    | some x =>
      match x.rdata with
      | .OPT o => some (some o)
      | _ => none
  match ednsv with
  | none => .panic
  | some edns =>
    .ok { qid := qid,
          rd := (flag1 &&& 1) != 0,
          tc := (flag1 &&& 2) != 0,
          aa := (flag1 &&& 4) != 0,
          qr := (flag1 &&& 128) != 0,
          opcode := opcode,
          cd := (flag2 &&& 32) != 0,
          ad := (flag2 &&& 64) != 0,
          ra := (flag2 &&& 128) != 0,
          rcode := (flag2 &&& 15) ||| (ercode <<< 8),
          bufsize := bufsize,
          edns_ver := ever,
          edns_do := edo,
          question := { qdomain := qdomain, qtype := qtype, qclass := qclass },
          answer := answer,
          nameserver := nameserver,
          additional := additional.filter (fun rr => rr.rrtype != RR_OPT),
          edns := edns } s

/-! ## Concrete fixtures for witnesses and counterexamples -/

/-- A minimal request packet with empty options (chaddr from the test
default, RFC 7042 documentation range). -/
def xpkt : DHCP :=
  { op := 1, htype := 1, hlen := 6, hops := 0, xid := 3735928559, secs := 0, flags := 0,
    ciaddr := 0, yiaddr := 0, siaddr := 0, giaddr := 0,
    chaddr := [0, 0, 94, 0, 83, 0], sname := [], file := [], options := ⟨[]⟩ }

/-- A request carrying `xpkt`, received on interface address 5. -/
def xreq : DHCPRequest := { pkt := xpkt, serverip := 5, ifindex := 1 }

/-- A catch-all policy (subnet 0.0.0.0/0) contributing candidate address 42. -/
def xpol : Policy := .mk none (some ⟨0, 0⟩) [] (some [42]) [] []

/-- An allocator that always hands out address 42 with a 3600 s lease. -/
def xalloc : Allocator := fun _ _ _ => .ok ⟨42, 3600⟩

/-- A request whose packet carries ServerId 0.0.0.1 and arrives on
interface address 0.0.0.2 — a known server id different from the arrival
address. -/
def c3req : DHCPRequest :=
  { pkt := { xpkt with options := ⟨[(54, [0, 0, 0, 1])]⟩ }, serverip := 2, ifindex := 1 }

/-- A policy whose only predicate references option 12. -/
def c4pol : Policy := .mk none none [(12, [97])] none [] []

/-- A policy with no predicates at all. -/
def c4pol_bare : Policy := .mk none none [] (some [42]) [] []

/-- A catch-all policy that applies option 7 with value `[1]`. -/
def c5pol : Policy := .mk none (some ⟨0, 0⟩) [] (some [42]) [(7, [1])] []

/-- The C7 buffer: 236-byte zero prefix, magic cookie, then a MessageType
option carrying DECLINE (4) and the end marker. -/
def c7buf : List Nat := List.replicate 236 0 ++ [99, 130, 83, 99] ++ [53, 1, 4, 255]

/-- The packet `c7buf` parses to. -/
def c7pkt : DHCP :=
  { op := 0, htype := 0, hlen := 0, hops := 0, xid := 0, secs := 0, flags := 0,
    ciaddr := 0, yiaddr := 0, siaddr := 0, giaddr := 0,
    chaddr := List.replicate 16 0, sname := List.replicate 64 0,
    file := List.replicate 128 0, options := ⟨[(53, [4])]⟩ }

/-- A policy whose chaddr predicate mismatches `xreq`. -/
def c10pol : Policy := .mk (some [1, 2, 3, 4, 5, 6]) none [] (some [7]) [(53, [9])] []

/-- The ACK `handle_request` builds for `c3req` under `xpol` and `xalloc`:
its ServerId option echoes the request's ServerId 0.0.0.1, not the arrival
address 0.0.0.2. -/
def c3reply : DHCP :=
  { op := 2, htype := 1, hlen := 6, hops := 0, xid := 3735928559, secs := 0, flags := 0,
    ciaddr := 0, yiaddr := 42, siaddr := 0, giaddr := 0,
    chaddr := [0, 0, 94, 0, 83, 0], sname := [], file := [],
    options := ⟨[(51, [0, 0, 14, 16]), (54, [0, 0, 0, 1]), (53, [5])]⟩ }

end Erbium

deriving instance DecidableEq for Except

set_option maxRecDepth 10000

namespace Erbium

/-! ## Lemmas about the option map -/

theorem DhcpOptions.get_setOption_self (o : DhcpOptions) (k : Nat) (v : List Nat) :
    (o.setOption k v).get k = some v := by
  simp [DhcpOptions.get, DhcpOptions.setOption]

theorem find?_filter_ne (l : List (Nat × List Nat)) (k c : Nat) (h : c ≠ k) :
    (l.filter fun p => p.1 ≠ k).find? (fun p => p.1 == c) = l.find? (fun p => p.1 == c) := by
  rw [List.find?_filter]
  congr 1
  funext p
  by_cases hp : p.1 = k
  · have hpc : (p.1 == c) = false := by
      rw [beq_eq_false_iff_ne, hp]
      exact fun hk => h hk.symm
    simp [hp, hpc]
    exact fun hk => h hk.symm
  · simp [hp, beq_eq_decide]

theorem DhcpOptions.get_setOption_ne (o : DhcpOptions) (k c : Nat) (v : List Nat) (h : c ≠ k) :
    (o.setOption k v).get c = o.get c := by
  have hkc : (k == c) = false := by
    rw [beq_eq_false_iff_ne]
    exact fun hk => h hk.symm
  simp only [DhcpOptions.get, DhcpOptions.setOption]
  rw [List.find?_cons_of_neg _ (by simp [hkc]), find?_filter_ne o.other k c h]

theorem DhcpOptions.get_maybe_set_option_ne (o : DhcpOptions) (k c : Nat)
    (ov : Option (List Nat)) (h : c ≠ k) :
    (o.maybe_set_option k ov).get c = o.get c := by
  cases ov <;> simp [DhcpOptions.maybe_set_option, DhcpOptions.get_setOption_ne _ _ _ _ h]

theorem decodeIp_encodeIp (n : Nat) : decodeIp (encodeIp n) = some (n % 2 ^ 32) := by
  simp only [decodeIp, encodeIp, Option.some.injEq]
  omega

theorem decodeIp_encodeIp_of_lt (n : Nat) (h : n < 2 ^ 32) : decodeIp (encodeIp n) = some n := by
  rw [decodeIp_encodeIp, Nat.mod_eq_of_lt h]

/-! ## The boolean result of the policy evaluator -/

/-- The boolean `apply_policy` returns is determined by `check_policy` and,
in the NoMatch case, by `check_policies` on the children — independently of
the Response scratch. -/
theorem apply_policy_fst (req : DHCPRequest) (p : Policy) (resp : Response) :
    (apply_policy req p resp).1 =
      (match check_policy req p with
       | .MatchFailed => false
       | .NoMatch => check_policies req p.policies
       | .MatchSucceeded => true) := by
  obtain ⟨mc, ms, mo, aa, ao, children⟩ := p
  rw [apply_policy.eq_def]
  cases hcp : check_policy req (Policy.mk mc ms mo aa ao children) <;>
    cases hch : check_policies req children <;>
      simp [Policy.policies, hcp, hch]

/-- `apply_policies` and `check_policies` agree on their boolean verdict for
every initial scratch. -/
theorem apply_policies_fst (req : DHCPRequest) (ps : List Policy) :
    ∀ resp : Response, (apply_policies req ps resp).1 = check_policies req ps := by
  induction ps with
  | nil =>
    intro resp
    simp [apply_policies, check_policies]
  | cons p rest ih =>
    intro resp
    obtain ⟨mc, ms, mo, aa, ao, children⟩ := p
    rw [apply_policies, check_policies]
    rcases hap : apply_policy req (Policy.mk mc ms mo aa ao children) resp with ⟨b, r⟩
    have hfst := apply_policy_fst req (Policy.mk mc ms mo aa ao children) resp
    rw [hap] at hfst
    simp only [Policy.policies] at hfst
    cases hcp : check_policy req (Policy.mk mc ms mo aa ao children) <;>
      simp only [hcp] at hfst <;> subst hfst
    · -- NoMatch: the head's verdict is the children's verdict
      cases hch : check_policies req children <;> simp [hch, ih r]
    · -- MatchFailed
      simp [ih r]
    · -- MatchSucceeded
      simp

/-- When `apply_policy` rejects a policy it has not touched the scratch. -/
theorem apply_policy_snd_of_false (req : DHCPRequest) (p : Policy) (resp : Response)
    (h : (apply_policy req p resp).1 = false) : (apply_policy req p resp).2 = resp := by
  obtain ⟨mc, ms, mo, aa, ao, children⟩ := p
  rw [apply_policy.eq_def] at h ⊢
  cases hcp : check_policy req (Policy.mk mc ms mo aa ao children) <;>
    cases hch : check_policies req children <;> simp [hcp, hch] at h ⊢

/-- When `apply_policies` rejects every policy it has not touched the
scratch. -/
theorem apply_policies_snd_of_false (req : DHCPRequest) (ps : List Policy) :
    ∀ resp : Response, (apply_policies req ps resp).1 = false →
      (apply_policies req ps resp).2 = resp := by
  induction ps with
  | nil =>
    intro resp _
    simp [apply_policies]
  | cons p rest ih =>
    intro resp h
    rw [apply_policies] at h ⊢
    rcases hap : apply_policy req p resp with ⟨b, r⟩
    rw [hap] at h
    cases b
    · have h1 : (apply_policy req p resp).1 = false := by rw [hap]
      have hr := apply_policy_snd_of_false req p resp h1
      rw [hap] at hr
      have h2 : (apply_policies req rest r).1 = false := h
      show (apply_policies req rest r).2 = resp
      rw [ih r h2]
      exact hr
    · exact Bool.noConfusion h

/-- C1: for every DHCP request, list of policies and initial Response
scratch, `apply_policies` returns true if and only if `check_policies`
returns true. -/
theorem claim_C1_apply_policies_iff_check_policies (req : DHCPRequest)
    (policies : List Policy) (response : Response) :
    (apply_policies req policies response).1 = true ↔ check_policies req policies = true := by
  rw [apply_policies_fst]

/-- C10: whenever `apply_policy` returns false the Response scratch is left
exactly as passed in, and whenever `apply_policies` returns false over a
whole policy list the Response is unchanged. -/
theorem claim_C10_reject_leaves_response_unchanged (req : DHCPRequest) (policy : Policy)
    (policies : List Policy) (response response2 : Response) :
    ((apply_policy req policy response).1 = false →
      (apply_policy req policy response).2 = response) ∧
    ((apply_policies req policies response2).1 = false →
      (apply_policies req policies response2).2 = response2) :=
  ⟨apply_policy_snd_of_false req policy response,
   apply_policies_snd_of_false req policies response2⟩

/-- Witness for C10: a chaddr-mismatching policy rejects `xreq` and leaves
the seeded Response untouched. -/
theorem claim_C10_witness :
    (apply_policy xreq c10pol (seed_response xreq)).2 = seed_response xreq ∧
    (apply_policies xreq [c10pol] (seed_response xreq)).2 = seed_response xreq := by
  constructor
  · exact (claim_C10_reject_leaves_response_unchanged xreq c10pol []
      (seed_response xreq) (seed_response xreq)).1
      (by simp [apply_policy, check_policy, check_policy_subnet, check_other,
        xreq, xpkt, c10pol, Policy.match_chaddr, Policy.match_subnet, Policy.match_other])
  · exact (claim_C10_reject_leaves_response_unchanged xreq c10pol [c10pol]
      (seed_response xreq) (seed_response xreq)).2
      (by simp [apply_policies, apply_policy, check_policy, check_policy_subnet, check_other,
        xreq, xpkt, c10pol, Policy.match_chaddr, Policy.match_subnet, Policy.match_other])

/-! ## The three-valued match (C4) -/

/-- An entry of `match_other` whose option is absent forces MatchFailed,
whatever outcome has accumulated. -/
theorem check_other_of_absent (opts : DhcpOptions) (mo : List (Nat × List Nat))
    (k : Nat) (m : List Nat) (hmem : (k, m) ∈ mo) (habs : opts.get k = none) :
    ∀ outcome, check_other opts mo outcome = .MatchFailed := by
  induction mo with
  | nil => cases hmem
  | cons hd tl ih =>
    intro outcome
    obtain ⟨k2, m2⟩ := hd
    rw [check_other]
    rcases List.mem_cons.mp hmem with heq | hmem2
    · obtain ⟨hk, hm⟩ := Prod.mk.injEq .. ▸ heq
      subst hk
      simp [habs]
    · cases hv : opts.get k2 with
      | none => simp
      | some v =>
        by_cases hm2 : (m2 == v) = true
        · simp [hm2, ih hmem2]
        · simp [hm2]

/-- A policy with no predicates at all evaluates to NoMatch. -/
theorem check_policy_no_predicates (req : DHCPRequest) (p : Policy)
    (h1 : p.match_chaddr = none) (h2 : p.match_subnet = none) (h3 : p.match_other = []) :
    check_policy req p = .NoMatch := by
  simp [check_policy, check_policy_subnet, check_other, h1, h2, h3]

/-- A policy one of whose `match_other` options is absent from the request
evaluates to MatchFailed. -/
theorem check_policy_of_absent (req : DHCPRequest) (p : Policy) (k : Nat) (m : List Nat)
    (hmem : (k, m) ∈ p.match_other) (habs : req.pkt.options.get k = none) :
    check_policy req p = .MatchFailed := by
  have hco := check_other_of_absent req.pkt.options p.match_other k m hmem habs
  cases h1 : p.match_chaddr with
  | none =>
    cases h2 : p.match_subnet with
    | none => simp [check_policy, check_policy_subnet, h1, h2, hco]
    | some sb =>
      by_cases hcs : sb.contains req.serverip = true <;>
        simp [check_policy, check_policy_subnet, h1, h2, hcs, hco]
  | some mc =>
    by_cases hch : req.pkt.chaddr = mc
    · cases h2 : p.match_subnet with
      | none => simp [check_policy, check_policy_subnet, h1, h2, hch, hco]
      | some sb =>
        by_cases hcs : sb.contains req.serverip = true <;>
          simp [check_policy, check_policy_subnet, h1, h2, hch, hcs, hco]
    · simp [check_policy, h1, hch]

/-- C4 (amended): `check_policy` returns NoMatch for every pair in which
the policy declares no predicate referencing the request; when an option
referenced by a `match_other` predicate is absent from the request's
option map the result is MatchFailed, not NoMatch. -/
theorem claim_C4_check_policy_nomatch_and_absent (req : DHCPRequest) (p : Policy) :
    (p.match_chaddr = none → p.match_subnet = none → p.match_other = [] →
      check_policy req p = .NoMatch) ∧
    (∀ k m, (k, m) ∈ p.match_other → req.pkt.options.get k = none →
      check_policy req p = .MatchFailed) :=
  ⟨fun h1 h2 h3 => check_policy_no_predicates req p h1 h2 h3,
   fun k m hmem habs => check_policy_of_absent req p k m hmem habs⟩

/-- C4 counterexample: the policy references option 12, the request lacks
it, and `check_policy` answers MatchFailed — not NoMatch as the claim
states. -/
theorem claim_C4_counterexample :
    xreq.pkt.options.get 12 = none ∧ check_policy xreq c4pol = .MatchFailed ∧
      check_policy xreq c4pol ≠ .NoMatch := by
  refine ⟨by decide, by decide, by decide⟩

/-- Witness for C4: both amended branches at concrete inputs. -/
theorem claim_C4_witness :
    check_policy xreq c4pol_bare = .NoMatch ∧ check_policy xreq c4pol = .MatchFailed :=
  ⟨(claim_C4_check_policy_nomatch_and_absent xreq c4pol_bare).1 rfl rfl rfl,
   (claim_C4_check_policy_nomatch_and_absent xreq c4pol).2 12 [97] (by decide) (by decide)⟩

/-! ## Parameter-Request-List filtering (C5) -/

/-- The `apply_other` loop never writes an option code that is not in the
Parameter-Request-List. -/
theorem apply_other_loop_get (pl : List Nat) (ao : List (Nat × List Nat)) (c : Nat)
    (hc : pl.contains c = false) :
    ∀ options : DhcpOptions, (apply_other_loop pl ao options).get c = options.get c := by
  induction ao with
  | nil => intro o; rfl
  | cons hd tl ih =>
    intro o
    obtain ⟨k, v⟩ := hd
    rw [apply_other_loop]
    by_cases hk : pl.contains k = true
    · rw [if_pos hk, ih]
      have hck : c ≠ k := by
        intro hek
        rw [hek, hk] at hc
        exact Bool.noConfusion hc
      simp only [DhcpOptions.mutate_option]
      exact DhcpOptions.get_setOption_ne o k c v hck
    · rw [if_neg hk, ih]

/-- `apply_policy` leaves every option code outside the request's
Parameter-Request-List untouched, whatever the policy tree does. -/
theorem apply_policy_get_not_requested (req : DHCPRequest) (c : Nat)
    (hc : (param_list req).contains c = false) :
    ∀ (p : Policy) (resp : Response),
      ((apply_policy req p resp).2).options.get c = resp.options.get c := by
  intro p resp
  refine apply_policy.induct req
    (fun p resp => ((apply_policy req p resp).2).options.get c = resp.options.get c)
    (fun ps resp => ((apply_policies req ps resp).2).options.get c = resp.options.get c)
    ?_ ?_ ?_ ?_ ?_ ?_ p resp
  · intro response mc ms mo aa ao children
    dsimp only
    intro h
    rw [apply_policy.eq_def]
    simp [h]
  · intro response mc ms mo aa ao children
    dsimp only
    intro h1 h2
    rw [apply_policy.eq_def]
    simp [h1, h2]
  · intro response mc ms mo aa ao children
    dsimp only
    intro h1 h2 ih
    rw [apply_policy.eq_def]
    simp only [if_neg h1, if_neg h2]
    refine Eq.trans ?_ (Eq.trans ih ?_)
    · cases aa <;> rfl
    · cases aa <;> exact apply_other_loop_get (param_list req) ao c hc _
  · intro response
    simp [apply_policies]
  · intro response policy rest response1 hap ih1
    rw [apply_policies, hap]
    rw [hap] at ih1
    exact ih1
  · intro response policy rest response1 hap ih1 ih2
    rw [apply_policies, hap]
    show (apply_policies req rest response1).2.options.get c = response.options.get c
    rw [ih2]
    have h1 : (apply_policy req policy response).2 = response1 := by rw [hap]
    rw [← h1]
    exact ih1

/-- C5: when policies are applied, a pair of `apply_other` whose code is
absent from the request's Parameter-Request-List (option 55) is never
written: the Response's option map is unchanged at that code, both for one
policy and for a policy list. -/
theorem claim_C5_paramlist_filters_apply_other (req : DHCPRequest) (p : Policy)
    (policies : List Policy) (resp resp2 : Response) (c : Nat)
    (hc : (param_list req).contains c = false) :
    ((apply_policy req p resp).2).options.get c = resp.options.get c ∧
    ((apply_policies req policies resp2).2).options.get c = resp2.options.get c := by
  constructor
  · exact apply_policy_get_not_requested req c hc p resp
  · induction policies generalizing resp2 with
    | nil => simp [apply_policies]
    | cons q rest ih =>
      rw [apply_policies]
      rcases hap : apply_policy req q resp2 with ⟨b, r⟩
      have hq := apply_policy_get_not_requested req c hc q resp2
      rw [hap] at hq
      cases b
      · show ((apply_policies req rest r).2).options.get c = _
        rw [ih r]
        exact hq
      · exact hq

/-- Witness for C5: a policy applying option 7, not requested by the
client, leaves option 7 unset in the Response. -/
theorem claim_C5_witness :
    ((apply_policy xreq c5pol (seed_response xreq)).2).options.get 7 =
      (seed_response xreq).options.get 7 ∧
    ((apply_policies xreq [c5pol] (seed_response xreq)).2).options.get 7 =
      (seed_response xreq).options.get 7 :=
  claim_C5_paramlist_filters_apply_other xreq c5pol [c5pol]
    (seed_response xreq) (seed_response xreq) 7 (by decide)

/-! ## Reply construction (C2) -/

/-- C2: a reply of `handle_discover` or `handle_request` echoes the
request's xid, flags, giaddr and chaddr; yiaddr is the allocated lease's
IP; siaddr is UNSPECIFIED; ciaddr is UNSPECIFIED in the OFFER and mirrors
the request's ciaddr in the ACK. -/
theorem claim_C2_reply_fields (alloc : Allocator) (req : DHCPRequest) (serverids : List Nat)
    (policies : List Policy) (reply reply2 : DHCP) :
    (handle_discover alloc req serverids policies = .ok reply →
      reply.xid = req.pkt.xid ∧ reply.flags = req.pkt.flags ∧
      reply.giaddr = req.pkt.giaddr ∧ reply.chaddr = req.pkt.chaddr ∧
      reply.siaddr = UNSPECIFIED ∧ reply.ciaddr = UNSPECIFIED ∧
      (∃ addresses lease,
        (apply_policies req policies (seed_response req)).2.address = some addresses ∧
        alloc req.pkt.get_client_id req.pkt.options.get_address_request addresses = .ok lease ∧
        reply.yiaddr = lease.ip)) ∧
    (handle_request alloc req serverids policies = .ok reply2 →
      reply2.xid = req.pkt.xid ∧ reply2.flags = req.pkt.flags ∧
      reply2.giaddr = req.pkt.giaddr ∧ reply2.chaddr = req.pkt.chaddr ∧
      reply2.siaddr = UNSPECIFIED ∧ reply2.ciaddr = req.pkt.ciaddr ∧
      (∃ addresses lease,
        (apply_policies req policies (seed_response req)).2.address = some addresses ∧
        alloc req.pkt.get_client_id req.pkt.options.get_address_request addresses = .ok lease ∧
        reply2.yiaddr = lease.ip)) := by
  constructor
  · intro h
    rw [handle_discover] at h
    rcases hap : apply_policies req policies (seed_response req) with ⟨b, resp⟩
    rw [hap] at h
    cases b
    · simp at h
    · simp only [Bool.not_true, Bool.false_eq_true, if_false] at h
      split at h
      · next addresses ha =>
        split at h
        · next lease hal =>
          injection h with h
          subst h
          exact ⟨rfl, rfl, rfl, rfl, rfl, rfl, addresses, lease, ha, hal, rfl⟩
        · next hal => simp at h
        · next e hal hne => simp at h
      · next ha => simp at h
  · intro h
    rw [handle_request] at h
    by_cases hg : other_server_guard req serverids = true
    · rw [if_pos hg] at h
      simp at h
    · rw [if_neg hg] at h
      rcases hap : apply_policies req policies (seed_response req) with ⟨b, resp⟩
      rw [hap] at h
      cases b
      · simp at h
      · simp only [Bool.not_true, Bool.false_eq_true, if_false] at h
        split at h
        · next addresses ha =>
          split at h
          · next lease hal =>
            injection h with h
            subst h
            exact ⟨rfl, rfl, rfl, rfl, rfl, rfl, addresses, lease, ha, hal, rfl⟩
          · next hal => simp at h
          · next e hal hne => simp at h
        · next ha => simp at h

/-- The concrete OFFER that `handle_discover` builds for `xreq` under
`xpol` and `xalloc`. -/
theorem claim_C2_witness :
    handle_discover xalloc xreq [] [xpol] =
      .ok { op := 2, htype := 1, hlen := 6, hops := 0, xid := 3735928559, secs := 0,
            flags := 0, ciaddr := 0, yiaddr := 42, siaddr := 0, giaddr := 0,
            chaddr := [0, 0, 94, 0, 83, 0], sname := [], file := [],
            options := ⟨[(54, [0, 0, 0, 5]), (53, [2])]⟩ } ∧
    (3735928559 : Nat) = xreq.pkt.xid ∧ (42 : Nat) = 42 := by
  have hd : handle_discover xalloc xreq [] [xpol] =
      .ok { op := 2, htype := 1, hlen := 6, hops := 0, xid := 3735928559, secs := 0,
            flags := 0, ciaddr := 0, yiaddr := 42, siaddr := 0, giaddr := 0,
            chaddr := [0, 0, 94, 0, 83, 0], sname := [], file := [],
            options := ⟨[(54, [0, 0, 0, 5]), (53, [2])]⟩ } := by
    simp [handle_discover, apply_policies, apply_policy, check_policies, check_policy,
      check_policy_subnet, check_other, xreq, xpol, xpkt, xalloc, Policy.match_chaddr,
      Policy.match_subnet, Policy.match_other, Ipv4Subnet.contains, apply_other_loop,
      param_list, seed_response, DhcpOptions.get, DhcpOptions.setOption,
      DhcpOptions.maybe_set_option, DhcpOptions.get_clientid, DHCP.get_client_id,
      DhcpOptions.get_address_request, encodeIp, UNSPECIFIED, OP_BOOTREPLY, HWTYPE_ETHERNET,
      OPTION_SERVERID, OPTION_MSGTYPE, OPTION_CLIENTID, OPTION_ADDRESSREQUEST,
      OPTION_PARAMLIST, DHCPOFFER]
  exact ⟨hd, ((claim_C2_reply_fields xalloc xreq [] [xpol] _ xpkt).1 hd).1.symm, rfl⟩

/-! ## The ServerId option of replies (C3) -/

/-- C3 counterexample: a REQUEST carrying a known ServerId 0.0.0.1 that
differs from the arrival address 0.0.0.2 is answered with an ACK whose
ServerId option is 0.0.0.1 — not `request.serverip` as the claim states. -/
theorem claim_C3_counterexample :
    (handle_request xalloc c3req [1] [xpol]).map (fun r => r.options.get_serverid) =
      .ok (some 1) ∧ c3req.serverip = 2 := by
  constructor
  · simp [handle_request, other_server_guard, apply_policies, apply_policy, check_policies,
      check_policy, check_policy_subnet, check_other, c3req, xpol, xpkt, xalloc,
      Policy.match_chaddr, Policy.match_subnet, Policy.match_other, Ipv4Subnet.contains,
      apply_other_loop, param_list, seed_response, DhcpOptions.get, DhcpOptions.setOption,
      DhcpOptions.maybe_set_option, DhcpOptions.get_clientid, DHCP.get_client_id,
      DhcpOptions.get_address_request, DhcpOptions.get_serverid, decodeIp, encodeIp,
      encodeU32, UNSPECIFIED, OP_BOOTREPLY, HWTYPE_ETHERNET, OPTION_SERVERID, OPTION_MSGTYPE,
      OPTION_CLIENTID, OPTION_ADDRESSREQUEST, OPTION_PARAMLIST, OPTION_LEASETIME, DHCPOFFER,
      DHCPACK, Except.map, List.find?_cons, Option.bind]
  · rfl

/-- C3 (amended): the OFFER's ServerId option equals `request.serverip`;
the ACK's ServerId option equals the request's ServerId option when the
request carries one, else `request.serverip`. -/
theorem claim_C3_serverid_amended (alloc : Allocator) (req : DHCPRequest)
    (serverids : List Nat) (policies : List Policy) (reply reply2 : DHCP)
    (hs : req.serverip < 2 ^ 32)
    (hsi : (req.pkt.options.get_serverid).getD req.serverip < 2 ^ 32) :
    (handle_discover alloc req serverids policies = .ok reply →
      reply.options.get_serverid = some req.serverip) ∧
    (handle_request alloc req serverids policies = .ok reply2 →
      reply2.options.get_serverid =
        some ((req.pkt.options.get_serverid).getD req.serverip)) := by
  constructor
  · intro h
    rw [handle_discover] at h
    rcases hap : apply_policies req policies (seed_response req) with ⟨b, resp⟩
    rw [hap] at h
    cases b
    · simp at h
    · simp only [Bool.not_true, Bool.false_eq_true, if_false] at h
      split at h
      · next addresses ha =>
        split at h
        · next lease hal =>
          injection h with h
          subst h
          rw [DhcpOptions.get_serverid]
          dsimp only
          rw [DhcpOptions.get_setOption_self]
          exact decodeIp_encodeIp_of_lt _ hs
        · next hal => simp at h
        · next e hal hne => simp at h
      · next ha => simp at h
  · intro h
    rw [handle_request] at h
    by_cases hg : other_server_guard req serverids = true
    · rw [if_pos hg] at h
      simp at h
    · rw [if_neg hg] at h
      rcases hap : apply_policies req policies (seed_response req) with ⟨b, resp⟩
      rw [hap] at h
      cases b
      · simp at h
      · simp only [Bool.not_true, Bool.false_eq_true, if_false] at h
        split at h
        · next addresses ha =>
          split at h
          · next lease hal =>
            injection h with h
            subst h
            rw [DhcpOptions.get_serverid]
            dsimp only
            rw [DhcpOptions.get_setOption_ne _ OPTION_LEASETIME OPTION_SERVERID _ (by decide),
              DhcpOptions.get_maybe_set_option_ne _ OPTION_CLIENTID OPTION_SERVERID _
                (by decide),
              DhcpOptions.get_setOption_self]
            exact decodeIp_encodeIp_of_lt _ hsi
          · next hal => simp at h
          · next e hal hne => simp at h
        · next ha => simp at h

/-- Witness for C3: the concrete ACK for `c3req` and its ServerId option,
obtained through the amended theorem. -/
theorem claim_C3_witness :
    handle_request xalloc c3req [1] [xpol] = .ok c3reply ∧
      c3reply.options.get_serverid = some 1 := by
  have hd : handle_request xalloc c3req [1] [xpol] = .ok c3reply := by
    simp [handle_request, other_server_guard, apply_policies, apply_policy, check_policies,
      check_policy, check_policy_subnet, check_other, c3req, c3reply, xpol, xpkt, xalloc,
      Policy.match_chaddr, Policy.match_subnet, Policy.match_other, Ipv4Subnet.contains,
      apply_other_loop, param_list, seed_response, DhcpOptions.get, DhcpOptions.setOption,
      DhcpOptions.maybe_set_option, DhcpOptions.get_clientid, DHCP.get_client_id,
      DhcpOptions.get_address_request, DhcpOptions.get_serverid, decodeIp, encodeIp,
      encodeU32, UNSPECIFIED, OP_BOOTREPLY, HWTYPE_ETHERNET, OPTION_SERVERID, OPTION_MSGTYPE,
      OPTION_CLIENTID, OPTION_ADDRESSREQUEST, OPTION_PARAMLIST, OPTION_LEASETIME, DHCPOFFER,
      DHCPACK]
  refine ⟨hd, ?_⟩
  have := (claim_C3_serverid_amended xalloc c3req [1] [xpol] c3reply c3reply
    (by decide) (by decide)).2 hd
  simpa [c3req, xpkt, DhcpOptions.get_serverid, DhcpOptions.get, decodeIp,
    OPTION_SERVERID] using this

/-! ## The OtherServer guard (C6) -/

/-- C6: `handle_request` answers OtherServer exactly when the request
carries a ServerId option naming a server outside the known set; the
result then does not depend on the allocator, so no allocation happens. -/
theorem claim_C6_other_server_iff (alloc : Allocator) (req : DHCPRequest)
    (serverids : List Nat) (policies : List Policy) :
    handle_request alloc req serverids policies = .error .OtherServer ↔
      ∃ si, req.pkt.options.get_serverid = some si ∧ serverids.contains si = false := by
  constructor
  · intro h
    by_cases hg : other_server_guard req serverids = true
    · unfold other_server_guard at hg
      cases hs : req.pkt.options.get_serverid with
      | none =>
        rw [hs] at hg
        exact Bool.noConfusion hg
      | some si =>
        rw [hs] at hg
        refine ⟨si, rfl, ?_⟩
        have hg2 : (!serverids.contains si) = true := hg
        cases hcon : serverids.contains si with
        | false => rfl
        | true =>
          rw [hcon] at hg2
          exact Bool.noConfusion hg2
    · rw [handle_request, if_neg hg] at h
      exfalso
      rcases hap : apply_policies req policies (seed_response req) with ⟨b, resp⟩
      rw [hap] at h
      cases b
      · simp at h
      · simp only [Bool.not_true, Bool.false_eq_true, if_false] at h
        split at h
        · next addresses ha =>
          split at h
          · next lease hal => simp at h
          · next hal => simp at h
          · next e hal hne => simp at h
        · next ha => simp at h
  · rintro ⟨si, hs, hcon⟩
    have hg : other_server_guard req serverids = true := by
      unfold other_server_guard
      rw [hs]
      show (!serverids.contains si) = true
      rw [hcon]
      rfl
    rw [handle_request, if_pos hg]

/-! ## Error mapping of the dispatcher (C8) -/

/-- With the ServerId guard passed, `handle_request` errs exactly where
`handle_discover` errs, with the same error. -/
theorem request_discover_same_errors (alloc : Allocator) (req : DHCPRequest)
    (serverids : List Nat) (policies : List Policy)
    (hg : other_server_guard req serverids = false) (e : DhcpError) :
    handle_request alloc req serverids policies = .error e ↔
      handle_discover alloc req serverids policies = .error e := by
  rw [handle_request, handle_discover, if_neg (by simp [hg])]
  rcases hap : apply_policies req policies (seed_response req) with ⟨b, resp⟩
  cases b
  · exact Iff.rfl
  · dsimp only
    cases ha : resp.address with
    | none => exact Iff.rfl
    | some addresses =>
      dsimp only
      cases hal : alloc req.pkt.get_client_id req.pkt.options.get_address_request addresses with
      | ok lease => simp
      | error pe => cases pe <;> exact Iff.rfl

/-- C8 (amended): `handle_discover` returns NoPolicyConfigured exactly when
no policy applies; NoLeasesAvailable when the applied policies contributed
no candidate set or the allocator reports NoAssignableAddress;
InternalError for any other allocator error; and `handle_request` behaves
identically provided its ServerId guard passes (the guard, checked first,
otherwise yields OtherServer instead). -/
theorem claim_C8_error_mapping (alloc : Allocator) (req : DHCPRequest)
    (serverids : List Nat) (policies : List Policy) :
    (handle_discover alloc req serverids policies = .error .NoPolicyConfigured ↔
      check_policies req policies = false) ∧
    ((apply_policies req policies (seed_response req)).1 = true →
      (apply_policies req policies (seed_response req)).2.address = none →
      handle_discover alloc req serverids policies = .error .NoLeasesAvailable) ∧
    (∀ a, (apply_policies req policies (seed_response req)).1 = true →
      (apply_policies req policies (seed_response req)).2.address = some a →
      alloc req.pkt.get_client_id req.pkt.options.get_address_request a =
        .error .NoAssignableAddress →
      handle_discover alloc req serverids policies = .error .NoLeasesAvailable) ∧
    (∀ a s, (apply_policies req policies (seed_response req)).1 = true →
      (apply_policies req policies (seed_response req)).2.address = some a →
      alloc req.pkt.get_client_id req.pkt.options.get_address_request a =
        .error (.OtherError s) →
      handle_discover alloc req serverids policies = .error (.InternalError s)) ∧
    (∀ e, other_server_guard req serverids = false →
      (handle_request alloc req serverids policies = .error e ↔
        handle_discover alloc req serverids policies = .error e)) := by
  refine ⟨?_, ?_, ?_, ?_, fun e hg => request_discover_same_errors alloc req serverids
    policies hg e⟩
  · rw [handle_discover]
    rcases hap : apply_policies req policies (seed_response req) with ⟨b, resp⟩
    have hb : b = check_policies req policies := by
      have := apply_policies_fst req policies (seed_response req)
      rw [hap] at this
      exact this
    cases b
    · simp [← hb]
    · dsimp only
      constructor
      · intro hh
        exfalso
        cases ha : resp.address with
        | none => rw [ha] at hh; simp at hh
        | some addresses =>
          rw [ha] at hh
          revert hh
          dsimp only
          cases hal : alloc req.pkt.get_client_id req.pkt.options.get_address_request
              addresses with
          | ok lease => simp
          | error pe => cases pe <;> simp
      · intro hh
        rw [← hb] at hh
        exact Bool.noConfusion hh
  · intro h1 h2
    rw [handle_discover]
    rcases hap : apply_policies req policies (seed_response req) with ⟨b, resp⟩
    rw [hap] at h1 h2
    have hb : b = true := h1
    subst hb
    have h2b : resp.address = none := h2
    dsimp only
    simp only [Bool.not_true, Bool.false_eq_true, if_false]
    rw [h2b]
  · intro a h1 h2 h3
    rw [handle_discover]
    rcases hap : apply_policies req policies (seed_response req) with ⟨b, resp⟩
    rw [hap] at h1 h2
    have hb : b = true := h1
    subst hb
    have h2b : resp.address = some a := h2
    dsimp only
    simp only [Bool.not_true, Bool.false_eq_true, if_false]
    rw [h2b]
    dsimp only
    rw [h3]
  · intro a s h1 h2 h3
    rw [handle_discover]
    rcases hap : apply_policies req policies (seed_response req) with ⟨b, resp⟩
    rw [hap] at h1 h2
    have hb : b = true := h1
    subst hb
    have h2b : resp.address = some a := h2
    dsimp only
    simp only [Bool.not_true, Bool.false_eq_true, if_false]
    rw [h2b]
    dsimp only
    rw [h3]
    simp [PoolError.toString]

/-- C8 counterexample: with an unknown ServerId and an empty policy list,
`handle_request` returns OtherServer although no policy applies, so
"handle_request identically returns NoPolicyConfigured exactly when no
policy applies" fails. -/
theorem claim_C8_counterexample :
    handle_request xalloc c3req [] [] = .error .OtherServer ∧
      check_policies c3req [] = false ∧
      handle_request xalloc c3req [] [] ≠ .error .NoPolicyConfigured := by
  have hg : other_server_guard c3req [] = true := by decide
  refine ⟨by rw [handle_request, if_pos hg], by simp [check_policies], ?_⟩
  rw [handle_request, if_pos hg]
  simp

/-- Witness for C8: an empty policy tree makes `handle_discover` answer
NoPolicyConfigured. -/
theorem claim_C8_witness :
    handle_discover xalloc xreq [] [] = .error .NoPolicyConfigured :=
  (claim_C8_error_mapping xalloc xreq [] []).1.mpr (by simp [check_policies])

/-! ## MessageType dispatch (C7) -/

/-- C7: for every buffer that parses into a packet, `handle_pkt` answers
ParseError(InvalidPacket) when the packet has no MessageType option and
UnknownMessageType(t) for every MessageType other than DISCOVER and
REQUEST. -/
theorem claim_C7_message_type_dispatch (alloc : Allocator) (buf : List Nat) (dst : Nat)
    (serverids : List Nat) (intf : Nat) (policies : List Policy) (pkt : DHCP)
    (hp : parse buf = .ok pkt) :
    (pkt.options.get_messagetype = none →
      handle_pkt alloc buf dst serverids intf policies =
        .error (.ParseError .InvalidPacket)) ∧
    (∀ t, pkt.options.get_messagetype = some t → t ≠ DHCPDISCOVER → t ≠ DHCPREQUEST →
      handle_pkt alloc buf dst serverids intf policies =
        .error (.UnknownMessageType t)) := by
  constructor
  · intro hm
    rw [handle_pkt.eq_def, hp]
    dsimp only
    rw [hm]
  · intro t hm h1 h3
    rw [handle_pkt.eq_def, hp]
    dsimp only
    rw [hm]
    dsimp only
    rw [if_neg h1, if_neg h3]

/-- Witness for C7: a parseable buffer carrying MessageType DECLINE (4) is
answered with UnknownMessageType 4. -/
theorem claim_C7_witness :
    handle_pkt xalloc c7buf 5 [] 1 [] = .error (.UnknownMessageType 4) :=
  (claim_C7_message_type_dispatch xalloc c7buf 5 [] 1 [] c7pkt (by decide)).2 4
    (by decide) (by decide) (by decide)

/-! ## The DNS parser panics (C9) -/

/-- C9: `get_dns` is not panic-free — on the empty buffer the very first
read reaches `peek_u8`, whose `self.buffer[self.offset]` indexes out of
bounds and panics. -/
theorem claim_C9_get_dns_panics_on_empty :
    PktParser.get_dns (PktParser.new []) = .panic := rfl

end Erbium
